import Mathlib

/-
Verification of the PersonStore component (src/src/app/store/person.store.ts).

The store is a `ComponentStore<PersonState>` with
  PersonState = { people: Person[]; editId?: number; editedPerson?: Person }
and the following operations:
  * updaters `loadPeople`, `setEditId`, `setEditedPerson` (pure state replacement);
  * effect `editPerson(id$)`: for each emitted id, `setEditId(id)`, then
      personToEdit = (!id && id !== 0) ? undefined : people.find(p => p.id === id)
      setEditedPerson({ ...(personToEdit as any) })
    Note the JavaScript semantics: the object spread of `undefined` is the empty
    object, so `setEditedPerson` always receives a freshly allocated object.
  * `cancelEditPerson()` / private `clearEditedPerson()`:
      setEditId(undefined); setEditedPerson(undefined)
  * a save pipeline built in the constructor:
      saveData$ = saveEditPerson$.pipe(withLatestFrom(editedPerson$, editId$),
                                       switchMap(([, p, id]) => service.savePerson(p, id)))
      sub.add(saveData$.subscribe({ next: person => { editPerson(person); clearEditedPerson() },
                                    error: e => console.log(e) }))
    `saveEditPerson()` fires the subject.  `switchMap` gives switch-to-latest
    semantics for in-flight saves, and an error delivered to the subscriber
    terminates the subscription for good (standard RxJS semantics).

The embedding models JavaScript object identity with an allocation counter:
an `Obj` carries a reference number `ref` and its fields `val`.  The value a
spread produces is a fresh object (fresh `ref`).  The value actually stored in
the `editId` field at run time can be `undefined`, a number, or (through the
save-success handler, which calls `editPerson(person)` with the whole Person)
an object, so it is modelled by `JSId`.

The asynchronous save pipeline is modelled as a state machine `Machine` with
a generation counter for in-flight saves (`switchMap` keeps only the latest
generation) and an `alive` flag for the subscription (cleared when an error is
delivered).
-/

set_option autoImplicit false

namespace PersonStoreModel

/-- Modelled from the spec: the Person model (src/app/models/person) is not in
the repository snapshot; per the spec a Person is opaque beyond having a
numeric `id` and arbitrary other fields, represented here by `name`. -/
structure Person where
  id : Int
  name : String
deriving DecidableEq, Repr

/-- The fields held by a JavaScript object that can end up in `editedPerson`:
either the fields of a Person, or no fields at all (the empty object produced
by spreading `undefined`). -/
inductive ObjVal where
  | empty : ObjVal
  | pers : Person → ObjVal
deriving DecidableEq, Repr

/-- A JavaScript object: an identity (allocation reference) plus its fields. -/
structure Obj where
  ref : Nat
  val : ObjVal
deriving DecidableEq, Repr

/-- The run-time value flowing into the `editPerson` effect and stored in the
`editId` field: `undefined`, a number, or a whole object (the save-success
handler passes the saved Person itself to `editPerson`). -/
inductive JSId where
  | undef : JSId
  | num : Int → JSId
  | obj : Obj → JSId
deriving DecidableEq, Repr

/-- PersonState from person.store.ts: `people`, optional `editId`, optional
`editedPerson`. -/
structure PersonState where
  people : List Obj
  editId : JSId
  editedPerson : Option Obj
deriving DecidableEq, Repr

/-- defaultState from person.store.ts. -/
def defaultState : PersonState :=
  { people := [], editId := JSId.undef, editedPerson := none }

/-- The store: the current state plus the allocation counter used to give
every freshly spread object a fresh reference. -/
structure Store where
  state : PersonState
  nextRef : Nat
deriving DecidableEq, Repr

/-- The store as constructed: default state, no allocations yet. -/
def defaultStore : Store :=
  { state := defaultState, nextRef := 0 }

/-- Updater `loadPeople(state, people) = { ...state, people: people || [] }`.
A `null` argument (here `none`) is replaced by the empty list; a list argument
(even the empty list) is stored as is, which coincides with `people || []`
because an empty array is truthy in JavaScript. -/
def loadPeople (s : Store) (people : Option (List Obj)) : Store :=
  { s with state := { s.state with people := people.getD [] } }

/-- Updater `setEditId(state, editId) = { ...state, editId }`. -/
def setEditId (s : Store) (editId : JSId) : Store :=
  { s with state := { s.state with editId := editId } }

/-- Updater `setEditedPerson(state, editedPerson) = { ...state, editedPerson }`. -/
def setEditedPerson (s : Store) (editedPerson : Option Obj) : Store :=
  { s with state := { s.state with editedPerson := editedPerson } }

/-- JavaScript falsiness of the value in an `editId` position: `undefined` and
the number 0 are falsy, nonzero numbers and objects are truthy. -/
def jsFalsy : JSId → Bool
  | JSId.undef => true
  | JSId.num n => n == 0
  | JSId.obj _ => false

/-- The predicate of `people.find((person) => person.id === id)`: a strict
equality between the entry's `id` field and the selection value.  An entry
with no fields has no `id` property (it reads as `undefined`), and strict
equality between a number and an object, or with `undefined`, is false. -/
def idMatches (id : JSId) (o : Obj) : Bool :=
  match id, o.val with
  | JSId.num n, ObjVal.pers p => p.id == n
  | _, _ => false

/-- The fields produced by the object spread `{ ...x }`: spreading `undefined`
yields no fields (the empty object); spreading an object copies its fields. -/
def spreadVal : Option Obj → ObjVal
  | none => ObjVal.empty
  | some o => o.val

/-- The `editPerson` effect, per emitted selection value `id` (with the
current `people` captured by `withLatestFrom`):
  1. `setEditId(id)`;
  2. `personToEdit = (!id && id !== 0) ? undefined : people.find(p => p.id === id)`;
  3. `setEditedPerson({ ...(personToEdit as any) })`, which allocates a fresh
     object whose fields are the spread of `personToEdit`. -/
def editPerson (s : Store) (id : JSId) : Store :=
  let people := s.state.people
  let s1 := setEditId s id
  let personToEdit : Option Obj :=
    if jsFalsy id && !(id == JSId.num 0) then none
    else people.find? (idMatches id)
  let newObj : Obj := { ref := s1.nextRef, val := spreadVal personToEdit }
  setEditedPerson { s1 with nextRef := s1.nextRef + 1 } (some newObj)

/-- Private `clearEditedPerson()`: `setEditId(undefined); setEditedPerson(undefined)`. -/
def clearEditedPerson (s : Store) : Store :=
  setEditedPerson (setEditId s JSId.undef) none

/-- `cancelEditPerson()`: delegates to `clearEditedPerson()`. -/
def cancelEditPerson (s : Store) : Store :=
  clearEditedPerson s

/-- The save-success handler from the constructor subscription:
`next: (person) => { this.editPerson(person); this.clearEditedPerson(); }`.
Note that the whole Person object, not its numeric id, is fed to the
`editPerson` effect. -/
def saveSuccess (s : Store) (person : Obj) : Store :=
  clearEditedPerson (editPerson s (JSId.obj person))

/-- In-place mutation of the object with reference `r` (as JavaScript
assignment to the fields of an aliased object would do): every occurrence of
that reference in the list sees the new fields. -/
def mutateObj (objs : List Obj) (r : Nat) (v : ObjVal) : List Obj :=
  objs.map fun o => if o.ref = r then { o with val := v } else o

/-- The state invariant claimed by the spec: whenever `editId` is `undefined`,
`editedPerson` is `undefined`. -/
def stateInv (s : Store) : Prop :=
  s.state.editId = JSId.undef → s.state.editedPerson = none

instance (s : Store) : Decidable (stateInv s) :=
  inferInstanceAs (Decidable (s.state.editId = JSId.undef → s.state.editedPerson = none))

/-- The result of the external `savePerson` call: a Person object on success,
an opaque error value on failure. -/
inductive SaveResult where
  | ok : Obj → SaveResult
  | err : Int → SaveResult
deriving DecidableEq, Repr

/-- The save pipeline as a state machine: the store, whether the constructor
subscription is still alive, a generation counter for save triggers, the
generation of the single in-flight save that `switchMap` is still subscribed
to (earlier generations have been unsubscribed), the number of calls issued to
the external service, and the errors logged by the error handler. -/
structure Machine where
  store : Store
  alive : Bool
  gen : Nat
  inFlight : Option Nat
  calls : Nat
  log : List Int
deriving DecidableEq, Repr

/-- An event hitting the save pipeline: a `saveEditPerson()` trigger, or the
asynchronous resolution of the save of generation `g`. -/
inductive Event where
  | trigger : Event
  | resolve : Nat → SaveResult → Event
deriving DecidableEq, Repr

/-- One step of the save pipeline.
A trigger on a live subscription starts a new save (one call to the external
service) and `switchMap` switches to it, unsubscribing from any earlier
in-flight save; on a dead subscription the subject has no subscriber left and
nothing happens.  A resolution is acted upon only if the subscription is alive
and the resolving generation is the one `switchMap` is currently subscribed
to; otherwise it is discarded.  A success runs the save-success handler; an
error is logged once and terminates the subscription. -/
def step (m : Machine) : Event → Machine
  | Event.trigger =>
    if m.alive then
      { m with gen := m.gen + 1, inFlight := some (m.gen + 1), calls := m.calls + 1 }
    else m
  | Event.resolve g r =>
    if m.alive && (m.inFlight == some g) then
      match r with
      | SaveResult.ok person =>
        { m with store := saveSuccess m.store person, inFlight := none }
      | SaveResult.err e =>
        { m with log := m.log ++ [e], inFlight := none, alive := false }
    else m

/-! ### Helper lemmas -/

/-- Mapping a function that fixes every element of a list leaves it unchanged. -/
theorem map_eq_self_of_fixed {α : Type} (f : α → α) :
    ∀ l : List α, (∀ a ∈ l, f a = a) → l.map f = l
  | [], _ => rfl
  | a :: l, h => by
    simp only [List.map_cons]
    rw [h a (List.mem_cons_self a l),
      map_eq_self_of_fixed f l (fun b hb => h b (List.mem_cons_of_mem a hb))]

/-- A fold of `loadPeople` calls never touches `editId` or `editedPerson`. -/
theorem foldl_loadPeople_frame (args : List (Option (List Obj))) :
    ∀ s : Store,
      (args.foldl loadPeople s).state.editId = s.state.editId ∧
      (args.foldl loadPeople s).state.editedPerson = s.state.editedPerson := by
  induction args with
  | nil => intro s; exact ⟨rfl, rfl⟩
  | cons a args ih =>
    intro s
    simpa only [List.foldl_cons, loadPeople] using ih (loadPeople s a)

/-- When the subscription is dead, every event is a no-op. -/
theorem step_dead (m : Machine) (h : m.alive = false) : ∀ ev, step m ev = m := by
  intro ev
  cases ev with
  | trigger => simp [step, h]
  | resolve g r => simp [step, h]

/-- Selecting a numeric id always takes the `find` branch of `editPerson`
(the ternary guard `!id && id !== 0` is false for every number, 0 included). -/
theorem editPerson_num (s : Store) (n : Int) :
    editPerson s (JSId.num n) =
      setEditedPerson { setEditId s (JSId.num n) with nextRef := s.nextRef + 1 }
        (some { ref := s.nextRef,
                val := spreadVal (s.state.people.find? (idMatches (JSId.num n))) }) := by
  unfold editPerson
  have hcond : (jsFalsy (JSId.num n) && !(JSId.num n == JSId.num 0)) = false := by
    by_cases h0 : n = 0
    · subst h0; decide
    · simp [jsFalsy, h0]
  simp only [hcond, Bool.false_eq_true, if_false]
  rfl

/-! ### Claims -/

/-- Claim C1, evaluated at a failing input.  Selecting an id absent from
`people` (here 5 with an empty `people`), and likewise selecting `undefined`,
sets `editId` to the requested value but sets `editedPerson` to a freshly
allocated EMPTY OBJECT (the spread of `undefined`), not to `undefined` as the
claim and the code's own comment state. -/
theorem C1_absent_id_yields_empty_object_not_undefined :
    (editPerson defaultStore (JSId.num 5)).state.editId = JSId.num 5 ∧
    (editPerson defaultStore (JSId.num 5)).state.editedPerson =
      some { ref := 0, val := ObjVal.empty } ∧
    (editPerson defaultStore (JSId.num 5)).state.editedPerson ≠ none ∧
    (editPerson defaultStore JSId.undef).state.editedPerson =
      some { ref := 0, val := ObjVal.empty } ∧
    (editPerson defaultStore JSId.undef).state.editedPerson ≠ none := by
  refine ⟨rfl, rfl, by decide, rfl, by decide⟩

/-- Claim C2 as stated is false: `setEditedPerson` is one of the listed
operations, and from the default state (which satisfies the invariant) calling
it with a defined Person leaves `editId = undefined` while `editedPerson` is
defined. -/
theorem C2_counterexample :
    stateInv defaultStore ∧
    ¬ stateInv (setEditedPerson defaultStore (some { ref := 0, val := ObjVal.empty })) := by
  constructor
  · intro _; rfl
  · intro h
    exact Option.noConfusion (h rfl)

/-- Claim C2, amended: the invariant (`editId = undefined` implies
`editedPerson = undefined`) is preserved by `loadPeople`, by
`cancelEditPerson`, by the save-success handler, and by `editPerson` when the
selection input is a defined number; the raw setters `setEditId` and
`setEditedPerson`, and `editPerson(undefined)`, can break it. -/
theorem C2_invariant_preserved_amended (s : Store) (ps : Option (List Obj))
    (p : Obj) (n : Int) (h : stateInv s) :
    stateInv (loadPeople s ps) ∧
    stateInv (cancelEditPerson s) ∧
    stateInv (saveSuccess s p) ∧
    stateInv (editPerson s (JSId.num n)) := by
  refine ⟨?_, ?_, ?_, ?_⟩
  · intro heq
    exact h heq
  · intro _; rfl
  · intro _; rfl
  · intro heq
    rw [editPerson_num] at heq
    exact absurd heq (by simp [setEditedPerson, setEditId])

/-- Witness for the amended C2 theorem at a concrete store. -/
theorem C2_invariant_preserved_amended_witness :
    stateInv defaultStore ∧
    (stateInv (loadPeople defaultStore (some [])) ∧
     stateInv (cancelEditPerson defaultStore) ∧
     stateInv (saveSuccess defaultStore { ref := 3, val := ObjVal.empty }) ∧
     stateInv (editPerson defaultStore (JSId.num 1))) :=
  ⟨by decide,
   C2_invariant_preserved_amended defaultStore (some [])
     { ref := 3, val := ObjVal.empty } 1 (by decide)⟩

/-- A store holding one person (id 1, "Luke") with an edit of "Luke X" in
progress, as in the spec's save scenario. -/
def lukeStore : Store :=
  { state :=
      { people := [{ ref := 0, val := ObjVal.pers { id := 1, name := "Luke" } }],
        editId := JSId.num 1,
        editedPerson := some { ref := 1, val := ObjVal.pers { id := 1, name := "Luke X" } } },
    nextRef := 2 }

/-- The Person object the external save resolves with in the spec's scenario. -/
def savedLuke : Obj :=
  { ref := 5, val := ObjVal.pers { id := 1, name := "Luke X" } }

/-- Claim C3, evaluated at the failing input.  The save-success handler calls
`editPerson(person)` with the whole Person object, not its numeric id: the
intermediate state sets `editId` to the OBJECT, and the list lookup
(`person.id === id`, a number compared to an object) finds nothing, so
`editedPerson` becomes an empty object even though a person with the matching
id 1 is in `people` — whereas passing the number 1, as the claim states, would
find "Luke". -/
theorem C3_save_passes_object_not_numeric_id :
    (editPerson lukeStore (JSId.obj savedLuke)).state.editId = JSId.obj savedLuke ∧
    (editPerson lukeStore (JSId.obj savedLuke)).state.editId ≠ JSId.num 1 ∧
    (editPerson lukeStore (JSId.obj savedLuke)).state.editedPerson =
      some { ref := 2, val := ObjVal.empty } ∧
    (editPerson lukeStore (JSId.num 1)).state.editedPerson =
      some { ref := 2, val := ObjVal.pers { id := 1, name := "Luke" } } := by
  refine ⟨rfl, by decide, by decide, by decide⟩

/-- Claim C8: for every starting state, `cancelEditPerson` sets both `editId`
and `editedPerson` to `undefined` and leaves `people` unchanged. -/
theorem C8_cancelEditPerson_clears_and_frames (s : Store) :
    (cancelEditPerson s).state.editId = JSId.undef ∧
    (cancelEditPerson s).state.editedPerson = none ∧
    (cancelEditPerson s).state.people = s.state.people :=
  ⟨rfl, rfl, rfl⟩

/-- Claim C9: after any sequence of `loadPeople` calls, `people` equals the
argument of the most recent call (the empty list when `null` was passed), and
`editId` and `editedPerson` are untouched. -/
theorem C9_loadPeople_most_recent (s : Store) (args : List (Option (List Obj)))
    (ps : Option (List Obj)) :
    (((args ++ [ps]).foldl loadPeople s).state.people = ps.getD []) ∧
    (((args ++ [ps]).foldl loadPeople s).state.editId = s.state.editId) ∧
    (((args ++ [ps]).foldl loadPeople s).state.editedPerson = s.state.editedPerson) := by
  rw [List.foldl_append]
  refine ⟨rfl, ?_, ?_⟩
  · exact (foldl_loadPeople_frame args s).1
  · exact (foldl_loadPeople_frame args s).2

/-- Claim C5: selecting a numeric id that has a match in `people` (id 0
included) sets `editId` to the id and `editedPerson` to a freshly allocated
copy of the first matching entry: same fields, a reference distinct from every
entry of `people`, so mutating the copy leaves `people` unchanged. -/
theorem C5_editPerson_found (s : Store) (n : Int) (o0 : Obj)
    (hwf : ∀ o ∈ s.state.people, o.ref < s.nextRef)
    (hfind : s.state.people.find? (idMatches (JSId.num n)) = some o0) :
    (editPerson s (JSId.num n)).state.editId = JSId.num n ∧
    (editPerson s (JSId.num n)).state.editedPerson =
      some { ref := s.nextRef, val := o0.val } ∧
    (editPerson s (JSId.num n)).state.people = s.state.people ∧
    (∀ o ∈ s.state.people, o.ref ≠ s.nextRef) ∧
    (∀ v, mutateObj (editPerson s (JSId.num n)).state.people s.nextRef v =
      (editPerson s (JSId.num n)).state.people) := by
  have hne : ∀ o ∈ s.state.people, o.ref ≠ s.nextRef := fun o ho =>
    Nat.ne_of_lt (hwf o ho)
  rw [editPerson_num, hfind]
  refine ⟨rfl, rfl, rfl, hne, ?_⟩
  intro v
  show mutateObj s.state.people s.nextRef v = s.state.people
  unfold mutateObj
  exact map_eq_self_of_fixed _ s.state.people fun o ho => if_neg (hne o ho)

/-- A store holding one person whose id is the number 0, for the C5 witness. -/
def zeroObj : Obj :=
  { ref := 0, val := ObjVal.pers { id := 0, name := "Zero" } }

/-- A store whose `people` list contains exactly `zeroObj`. -/
def zeroStore : Store :=
  { state := { people := [zeroObj], editId := JSId.undef, editedPerson := none },
    nextRef := 1 }

/-- Witness for C5 at the id 0, which the claim singles out. -/
theorem C5_editPerson_found_witness :
    ((∀ o ∈ zeroStore.state.people, o.ref < zeroStore.nextRef) ∧
     zeroStore.state.people.find? (idMatches (JSId.num 0)) = some zeroObj) ∧
    (editPerson zeroStore (JSId.num 0)).state.editId = JSId.num 0 ∧
    (editPerson zeroStore (JSId.num 0)).state.editedPerson =
      some { ref := zeroStore.nextRef, val := zeroObj.val } ∧
    (editPerson zeroStore (JSId.num 0)).state.people = zeroStore.state.people ∧
    zeroObj.ref ≠ zeroStore.nextRef ∧
    mutateObj (editPerson zeroStore (JSId.num 0)).state.people zeroStore.nextRef
        (ObjVal.pers { id := 0, name := "Mutated" }) =
      (editPerson zeroStore (JSId.num 0)).state.people := by
  have h := C5_editPerson_found zeroStore 0 zeroObj (by decide) (by decide)
  exact ⟨⟨by decide, by decide⟩, h.1, h.2.1, h.2.2.1,
    h.2.2.2.1 zeroObj (List.mem_cons_self zeroObj []),
    h.2.2.2.2 (ObjVal.pers { id := 0, name := "Mutated" })⟩

/-- A freshly constructed pipeline machine: default store, live subscription,
no save in flight. -/
def m0 : Machine :=
  { store := defaultStore, alive := true, gen := 0, inFlight := none,
    calls := 0, log := [] }

/-- Claim C4: a save trigger followed by a successful resolution of that save
leaves `editId = undefined` and `editedPerson = undefined` (the success
handler ends with `clearEditedPerson()`). -/
theorem C4_save_success_clears_edit_state (m : Machine) (p : Obj)
    (h : m.alive = true) :
    (step (step m Event.trigger)
        (Event.resolve (m.gen + 1) (SaveResult.ok p))).store.state.editId = JSId.undef ∧
    (step (step m Event.trigger)
        (Event.resolve (m.gen + 1) (SaveResult.ok p))).store.state.editedPerson = none := by
  simp [step, h, saveSuccess, clearEditedPerson, setEditedPerson, setEditId]

/-- Witness for C4 at a concrete machine and saved Person. -/
theorem C4_save_success_clears_edit_state_witness :
    m0.alive = true ∧
    (step (step m0 Event.trigger)
        (Event.resolve (m0.gen + 1)
          (SaveResult.ok { ref := 9, val := ObjVal.empty }))).store.state.editId = JSId.undef ∧
    (step (step m0 Event.trigger)
        (Event.resolve (m0.gen + 1)
          (SaveResult.ok { ref := 9, val := ObjVal.empty }))).store.state.editedPerson = none :=
  ⟨rfl, C4_save_success_clears_edit_state m0 { ref := 9, val := ObjVal.empty } rfl⟩

/-- Claim C6: when the save of the current generation fails, the store is
exactly what it was before the trigger, the error is appended to the log
exactly once, and exactly the one triggering call was issued to the external
service (no retry, no error state field). -/
theorem C6_save_failure_logged_once_state_unchanged (m : Machine) (e : Int)
    (h : m.alive = true) :
    (step (step m Event.trigger)
        (Event.resolve (m.gen + 1) (SaveResult.err e))).store = m.store ∧
    (step (step m Event.trigger)
        (Event.resolve (m.gen + 1) (SaveResult.err e))).log = m.log ++ [e] ∧
    (step (step m Event.trigger)
        (Event.resolve (m.gen + 1) (SaveResult.err e))).calls = m.calls + 1 := by
  simp [step, h]

/-- Witness for C6 at a concrete machine and error value. -/
theorem C6_save_failure_logged_once_state_unchanged_witness :
    m0.alive = true ∧
    (step (step m0 Event.trigger)
        (Event.resolve (m0.gen + 1) (SaveResult.err 42))).store = m0.store ∧
    (step (step m0 Event.trigger)
        (Event.resolve (m0.gen + 1) (SaveResult.err 42))).log = m0.log ++ [42] ∧
    (step (step m0 Event.trigger)
        (Event.resolve (m0.gen + 1) (SaveResult.err 42))).calls = m0.calls + 1 :=
  ⟨rfl, C6_save_failure_logged_once_state_unchanged m0 42 rfl⟩

/-- Claim C7: after two triggers in quick succession, the resolution of the
first (superseded) save — success or failure alike — is discarded without any
effect, while the resolution of the second save is acted upon. -/
theorem C7_switch_to_latest (m : Machine) (r : SaveResult) (p : Obj)
    (h : m.alive = true) :
    step (step (step m Event.trigger) Event.trigger)
        (Event.resolve (m.gen + 1) r) =
      step (step m Event.trigger) Event.trigger ∧
    (step (step (step m Event.trigger) Event.trigger)
        (Event.resolve (m.gen + 1 + 1) (SaveResult.ok p))).store =
      saveSuccess m.store p := by
  have hne : m.gen + 1 + 1 ≠ m.gen + 1 := by omega
  constructor
  · simp [step, h, hne]
  · simp [step, h]

/-- Witness for C7 at a concrete machine, stale result and fresh result. -/
theorem C7_switch_to_latest_witness :
    m0.alive = true ∧
    step (step (step m0 Event.trigger) Event.trigger)
        (Event.resolve (m0.gen + 1) (SaveResult.err 13)) =
      step (step m0 Event.trigger) Event.trigger ∧
    (step (step (step m0 Event.trigger) Event.trigger)
        (Event.resolve (m0.gen + 1 + 1)
          (SaveResult.ok { ref := 9, val := ObjVal.empty }))).store =
      saveSuccess m0.store { ref := 9, val := ObjVal.empty } :=
  ⟨rfl, C7_switch_to_latest m0 (SaveResult.err 13) { ref := 9, val := ObjVal.empty } rfl⟩

/-- Claim C10: an error resolution of the in-flight save terminates the
subscription: the store is unchanged, no further call is issued, and every
later event (trigger or resolution) is a no-op on the machine. -/
theorem C10_error_terminates_save_pipeline (m : Machine) (g : Nat) (e : Int)
    (h : m.alive = true) (hg : m.inFlight = some g) :
    (step m (Event.resolve g (SaveResult.err e))).alive = false ∧
    (step m (Event.resolve g (SaveResult.err e))).store = m.store ∧
    (step m (Event.resolve g (SaveResult.err e))).calls = m.calls ∧
    ∀ ev, step (step m (Event.resolve g (SaveResult.err e))) ev =
      step m (Event.resolve g (SaveResult.err e)) := by
  have h1 : (step m (Event.resolve g (SaveResult.err e))).alive = false := by
    simp [step, h, hg]
  refine ⟨h1, ?_, ?_, step_dead _ h1⟩
  · simp [step, h, hg]
  · simp [step, h, hg]

/-- A machine with one save in flight, for the C10 witness. -/
def mInFlight : Machine :=
  { store := defaultStore, alive := true, gen := 1, inFlight := some 1,
    calls := 1, log := [] }

/-- Witness for C10 at a concrete machine, generation and error; the later
event is instantiated with a concrete trigger. -/
theorem C10_error_terminates_save_pipeline_witness :
    mInFlight.alive = true ∧ mInFlight.inFlight = some 1 ∧
    (step mInFlight (Event.resolve 1 (SaveResult.err 7))).alive = false ∧
    (step mInFlight (Event.resolve 1 (SaveResult.err 7))).store = mInFlight.store ∧
    (step mInFlight (Event.resolve 1 (SaveResult.err 7))).calls = mInFlight.calls ∧
    step (step mInFlight (Event.resolve 1 (SaveResult.err 7))) Event.trigger =
      step mInFlight (Event.resolve 1 (SaveResult.err 7)) := by
  have h := C10_error_terminates_save_pipeline mInFlight 1 7 rfl rfl
  exact ⟨rfl, rfl, h.1, h.2.1, h.2.2.1, h.2.2.2 Event.trigger⟩

end PersonStoreModel
